import Mathlib

/-!
Shallow embedding of the issue-lifecycle backend (Express + MongoDB server,
`src/index.js` and the earlier revision `src/unnamed/part_000`).

Modelling conventions:
* MongoDB documents become Lean structures; fields that are absent in a
  fresh document (`upvotedUsers`, `assignedTo`, `assignedStaff`) are
  modelled as `[]` / `none`, which is how MongoDB's `$push` /
  truthiness checks treat them.
* `new Date()` timestamps are a `Nat` clock value supplied to each
  handler; handlers never read a date from the request body, mirroring
  the source.
* Each route handler becomes a pure function; the MongoDB
  read-modify-write sequence inside one request is composed
  sequentially.  A handler that responds with an error status before
  any `updateOne`/`insertOne` is modelled as `Except.error msg`
  carrying the source's message string; the stored data is untouched in
  that case exactly as in the source (no write has been issued).
* JavaScript's `x || d` on strings is `jsOr`; on possibly-absent
  values it is `jsOrOpt`.
-/

/-- Issue status values used by the server ("Pending", "In-Progress",
"Working", "Resolved", "Closed"). -/
inductive Status where
  | Pending
  | InProgress
  | Working
  | Resolved
  | Closed
deriving DecidableEq

/-- The status strings as stored in MongoDB. -/
def Status.toText : Status → String
  | Status.Pending => "Pending"
  | Status.InProgress => "In-Progress"
  | Status.Working => "Working"
  | Status.Resolved => "Resolved"
  | Status.Closed => "Closed"

/-- JavaScript `s || d` for strings: the empty string is falsy. -/
def jsOr (s d : String) : String := if s = "" then d else s

/-- JavaScript `v || d` where `v` may be `undefined` (`none`). -/
def jsOrOpt (v : Option String) (d : String) : String := jsOr (v.getD "") d

/-- JavaScript `v || null` where `v` may be `undefined`. -/
def jsOrNull (v : Option String) : Option String :=
  match v with
  | none => none
  | some s => if s = "" then none else some s

/-- One element of an issue's `timeline` array
(`{status, message, updatedBy, role, date}`). -/
structure TimelineEntry where
  status : Option Status
  message : String
  updatedBy : String
  role : String
  date : Nat
deriving DecidableEq

/-- The `assignedTo` / `assignedStaff` subdocument
(`{email, name}`, `name` possibly null). -/
structure Assignment where
  email : String
  name : Option String
deriving DecidableEq

/-- An issue document in the `issues` collection. -/
structure Issue where
  title : String
  description : String
  category : String
  image : String
  reporterRegion : String
  reporterDistrict : String
  userEmail : String
  createdAt : Nat
  status : Status
  priority : String
  upvotes : Nat
  upvotedUsers : List String
  assignedTo : Option Assignment
  assignedStaff : Option Assignment
  timeline : List TimelineEntry
deriving DecidableEq

/-- Helper `addTimelineEntry` (src/index.js:121-136): builds the
timeline item with the JS `||` defaults and `date: new Date()`, then
`$push`es it onto the issue's timeline. -/
def addTimelineEntry (issue : Issue) (now : Nat) (status : Option Status)
    (message updatedBy role : String) : Issue :=
  { issue with
    timeline := issue.timeline ++
      [{ status := status
         message := jsOr message ""
         updatedBy := jsOr updatedBy "System"
         role := jsOr role "System"
         date := now }] }

/-- Handler `POST /issues` (src/index.js:733-789): validates required fields,
then inserts the issue with engine-set `status`, `priority`, `upvotes`,
`createdAt` and a one-element timeline. -/
def createIssue (now : Nat) (decodedEmail : String)
    (title description category : String) (image : Option String)
    (reporterRegion reporterDistrict : String) : Except String Issue :=
  if title = "" ∨ description = "" ∨ category = "" ∨
      reporterRegion = "" ∨ reporterDistrict = "" then
    Except.error "Missing required fields"
  else
    Except.ok
      { title := title
        description := description
        category := category
        image := image.getD ""
        reporterRegion := reporterRegion
        reporterDistrict := reporterDistrict
        userEmail := decodedEmail
        createdAt := now
        status := Status.Pending
        priority := "Normal"
        upvotes := 0
        upvotedUsers := []
        assignedTo := none
        assignedStaff := none
        timeline := [{ status := some Status.Pending
                       message := "Issue reported by citizen"
                       updatedBy := decodedEmail
                       role := "Citizen"
                       date := now }] }

/-- Handler `POST /issues` in the earlier revision (src/unnamed/part_000:140-162):
inserts the request body as-is after overwriting `createdAt`, `status`,
`priority`, `upvotes` and `userEmail`.  No timeline is initialised — the
caller-supplied body (modelled as an `Issue`) keeps whatever `timeline`
and `upvotedUsers` it carried. -/
def createIssuePart000 (now : Nat) (decodedEmail : String) (body : Issue) : Issue :=
  { body with
    createdAt := now
    status := Status.Pending
    priority := "Normal"
    upvotes := 0
    userEmail := decodedEmail }

/-- Handler `PATCH /issues/upvote/:id` (src/index.js:950-1002): self-vote guard,
duplicate guard via a `findOne` on `upvotedUsers`, then one `updateOne`
with `$inc: {upvotes: 1}` and `$push: {upvotedUsers}` followed by an
`addTimelineEntry` call. -/
def upvoteIssue (issue : Issue) (now : Nat) (decodedEmail : String) :
    Except String Issue :=
  if issue.userEmail = decodedEmail then
    Except.error "You cannot upvote your own issue"
  else if decodedEmail ∈ issue.upvotedUsers then
    Except.error "You have already upvoted this issue"
  else
    Except.ok (addTimelineEntry
      { issue with
        upvotes := issue.upvotes + 1
        upvotedUsers := issue.upvotedUsers ++ [decodedEmail] }
      now (some issue.status) ("Issue upvoted by " ++ decodedEmail)
      decodedEmail "Citizen")

/-- The `allowed` status list of `POST /issues/:id/status`
(src/index.js:892).  Note "Working" is absent. -/
def postStatusAllowed : List Status :=
  [Status.Pending, Status.InProgress, Status.Resolved, Status.Closed]

/-- Handler `POST /issues/:id/status` (src/index.js:887-916): membership check on
`postStatusAllowed` only — no transition-table validation — then a
`$set` of the status and a timeline entry with role "Staff". -/
def postIssueStatus (issue : Issue) (now : Nat) (decodedEmail : String)
    (target : Status) (note : Option String) : Except String Issue :=
  if target ∉ postStatusAllowed then
    Except.error "Invalid status"
  else
    Except.ok (addTimelineEntry { issue with status := target } now
      (some target) (jsOrOpt note ("Status changed to " ++ target.toText))
      decodedEmail "Staff")

/-- The per-status successor table of `PATCH /issues/:id/status`
(src/index.js:1443-1448); `allowed["Closed"]` is `undefined`, i.e. `[]`. -/
def patchAllowed : Status → List Status
  | Status.Pending => [Status.InProgress]
  | Status.InProgress => [Status.Working]
  | Status.Working => [Status.Resolved]
  | Status.Resolved => [Status.Closed]
  | Status.Closed => []

/-- Handler `PATCH /issues/:id/status` (src/index.js:1427-1474): rejects unless
`issue.assignedStaff?.email` equals the caller, then rejects any target
outside `patchAllowed`, then `$set`s the status and pushes an inline
timeline entry with `date: new Date()`. -/
def patchIssueStatus (issue : Issue) (now : Nat) (decodedEmail : String)
    (target : Status) : Except String Issue :=
  match issue.assignedStaff with
  | none => Except.error "Forbidden"
  | some a =>
    if a.email ≠ decodedEmail then
      Except.error "Forbidden"
    else if target ∉ patchAllowed issue.status then
      Except.error "Invalid status transition"
    else
      Except.ok { issue with
        status := target
        timeline := issue.timeline ++
          [{ status := some target
             message := "Status changed to " ++ target.toText
             updatedBy := decodedEmail
             role := "Staff"
             date := now }] }

/-- Handler `PATCH /staff/issues/:id/status` (src/index.js:1270-1318): the
assignment ownership check is commented out in the source; the handler
`$set`s any status and pushes an inline timeline entry.  An absent body
`message` is modelled as `""`. -/
def staffPatchIssueStatus (issue : Issue) (now : Nat) (decodedEmail : String)
    (target : Status) (message : Option String) : Issue :=
  { issue with
    status := target
    timeline := issue.timeline ++
      [{ status := some target
         message := message.getD ""
         updatedBy := decodedEmail
         role := "Staff"
         date := now }] }

/-- Handler `POST /admin/issues/:id/assign` (src/index.js:456-504): requires a
staff email, fails if `issue.assignedTo` is truthy, otherwise one
`updateOne` setting `assignedTo` and `status: "In-Progress"` together,
then a timeline entry with role "Admin".  No check of the prior status. -/
def adminAssignIssue (issue : Issue) (now : Nat) (decodedEmail : String)
    (staffEmail : String) (staffName : Option String) : Except String Issue :=
  if staffEmail = "" then
    Except.error "Missing staffEmail"
  else if issue.assignedTo.isSome then
    Except.error "Already assigned"
  else
    Except.ok (addTimelineEntry
      { issue with
        assignedTo := some { email := staffEmail, name := jsOrNull staffName }
        status := Status.InProgress }
      now (some Status.InProgress)
      ("Issue assigned to Staff: " ++ jsOrOpt staffName staffEmail)
      decodedEmail "Admin")

/-- Handler `POST /issues/:id/assign` (src/index.js:794-830): like the admin
variant but with no `assignedTo` guard — it overwrites any existing
assignment. -/
def plainAssignIssue (issue : Issue) (now : Nat) (decodedEmail : String)
    (staffEmail : String) (staffName : Option String) : Except String Issue :=
  if staffEmail = "" then
    Except.error "Missing staff email"
  else
    Except.ok (addTimelineEntry
      { issue with
        assignedTo := some { email := staffEmail, name := jsOrNull staffName }
        status := Status.InProgress }
      now (some Status.InProgress)
      ("Issue assigned to Staff: " ++ jsOrOpt staffName staffEmail)
      decodedEmail "Admin")

/-- Handler `POST /admin/issues/:id/reject` (src/index.js:506-547): fails unless
the status is "Pending", otherwise `$set`s "Closed" and appends an
"Admin" timeline entry carrying the reason. -/
def adminRejectIssue (issue : Issue) (now : Nat) (decodedEmail : String)
    (reason : Option String) : Except String Issue :=
  if issue.status ≠ Status.Pending then
    Except.error "Only pending issues can be rejected"
  else
    Except.ok (addTimelineEntry { issue with status := Status.Closed } now
      (some Status.Closed)
      ("Issue rejected by admin. Reason: " ++ jsOrOpt reason "Not specified")
      decodedEmail "Admin")

/-- Handler `POST /issues/:id/reject` (src/index.js:921-945): no status check and
no authentication middleware; unconditionally `$set`s "Closed" and
appends the "Admin" timeline entry. -/
def plainRejectIssue (issue : Issue) (now : Nat) (decodedEmail : String)
    (reason : Option String) : Issue :=
  addTimelineEntry { issue with status := Status.Closed } now
    (some Status.Closed)
    ("Issue rejected by admin. Reason: " ++ jsOrOpt reason "Not specified")
    decodedEmail "Admin"

/-- Handler `DELETE /issues/:id` (src/index.js:1007-1035): owner check only, no
status check; admins that do not own the issue are rejected too. -/
def deleteIssue (issue : Issue) (decodedEmail : String) : Except String Unit :=
  if issue.userEmail ≠ decodedEmail then
    Except.error "Forbidden: only owner can delete this issue"
  else
    Except.ok ()

/-- Handler `DELETE /issues/:id` in the earlier revision
(src/unnamed/part_000:243-263): status check only, no actor check. -/
def deleteIssuePart000 (issue : Issue) : Except String Unit :=
  if issue.status ≠ Status.Pending then
    Except.error "Only pending issues can be deleted"
  else
    Except.ok ()

/-- A retrieved Stripe checkout session, as read by the two success
handlers (`id`, `customer_email`, `amount_total`, `currency`,
`payment_status`, `metadata.issueId`, `metadata.title`). -/
structure CheckoutSession where
  id : String
  customerEmail : Option String
  amountTotal : Option Nat
  currency : Option String
  paymentStatus : Option String
  metaIssueId : Option String
  metaTitle : Option String
deriving DecidableEq

/-- A boost payment document as inserted by `GET /boost-success`
(src/index.js:1137-1146). -/
structure BoostPayment where
  issueId : String
  title : Option String
  email : Option String
  amount : Option Nat
  currency : Option String
  paymentStatus : Option String
  transactionId : String
  createdAt : Nat
deriving DecidableEq

/-- A subscription payment document as inserted by
`GET /subscribe-success` (src/index.js:709-715). -/
structure SubPayment where
  email : String
  amount : Nat
  currency : Option String
  createdAt : Nat
  sessionId : String
deriving DecidableEq

/-- A hexadecimal digit. -/
def isHexChar (c : Char) : Bool :=
  c.isDigit || "abcdef".toList.contains c || "ABCDEF".toList.contains c

/-- Check `ObjectId.isValid` for the 24-character hex form used by the ids in
this server. -/
def isValidObjectId (s : String) : Bool :=
  s.toList.length = 24 && s.toList.all isHexChar

/-- Handler `GET /boost-success` (src/index.js:1106-1168): resolves the session,
requires `metadata.issueId`, then — with no lookup of an existing
payment record — `$set`s the issue's priority to "High", inserts a new
payment document keyed by `transactionId: session.id`, and appends a
boost timeline entry.  `session.amount_total ? amount/100 : null` and
the `|| null` defaults are mirrored. -/
def boostSuccess (issue : Issue) (payments : List BoostPayment)
    (session : CheckoutSession) (now : Nat) :
    Except String (Issue × List BoostPayment) :=
  match session.metaIssueId with
  | none => Except.error "Missing issueId in session metadata"
  | some issueId =>
    if issueId = "" then
      Except.error "Missing issueId in session metadata"
    else if ¬ isValidObjectId issueId then
      Except.error "Invalid issueId"
    else
      let payDoc : BoostPayment :=
        { issueId := issueId
          title := session.metaTitle
          email := session.customerEmail
          amount := match session.amountTotal with
                    | some n => if n = 0 then none else some (n / 100)
                    | none => none
          currency := jsOrNull session.currency
          paymentStatus := jsOrNull session.paymentStatus
          transactionId := session.id
          createdAt := now }
      Except.ok
        (addTimelineEntry { issue with priority := "High" } now none
          "Issue boosted by payment" ((session.customerEmail).getD "") "Citizen",
         payments ++ [payDoc])

/-- A user document in the `users` collection.  `role` and `createdAt`
are optional because the part_000 revision inserts users without a
role. -/
structure UserDoc where
  email : String
  displayName : String
  role : Option String
  isBlocked : Bool
  isPremium : Bool
  subscriptionDate : Option Nat
  createdAt : Option Nat
deriving DecidableEq

/-- Mongo `updateOne({email}, {$set: {isPremium: true, subscriptionDate}})`:
MongoDB's `updateOne` touches the first matching document only. -/
def setPremium : List UserDoc → String → Nat → List UserDoc
  | [], _, _ => []
  | u :: us, email, now =>
    if u.email = email then
      { u with isPremium := true, subscriptionDate := some now } :: us
    else
      u :: setPremium us email now

/-- Handler `GET /subscribe-success` (src/index.js:684-729): resolves the
session, requires `customer_email`, then — with no lookup of an existing
payment record — marks the user premium and inserts a new payment
document keyed by `sessionId`.  (`session.amount_total / 100` with an
absent total is a JavaScript `NaN`; the amount field plays no role in
any claim and an absent total is modelled as amount `0 / 100`.) -/
def subscribeSuccess (users : List UserDoc) (payments : List SubPayment)
    (session : CheckoutSession) (now : Nat) :
    Except String (List UserDoc × List SubPayment) :=
  match session.customerEmail with
  | none => Except.error "Customer email missing"
  | some email =>
    if email = "" then
      Except.error "Customer email missing"
    else
      Except.ok
        (setPremium users email now,
         payments ++
           [{ email := email
              amount := session.amountTotal.getD 0 / 100
              currency := session.currency
              createdAt := now
              sessionId := session.id }])

/-- Middleware `verifyAdmin` (src/index.js:103-119): looks the caller up
by decoded email and requires `role === "admin"`. -/
def verifyAdmin (users : List UserDoc) (decodedEmail : String) : Bool :=
  match users.find? (fun u => u.email == decodedEmail) with
  | some u => u.role == some "admin"
  | none => false

/-- Mongo `updateOne({email}, {$set: {role}})` on the first matching user. -/
def setRoleFirst : List UserDoc → String → String → List UserDoc
  | [], _, _ => []
  | u :: us, email, role =>
    if u.email = email then
      { u with role := some role } :: us
    else
      u :: setRoleFirst us email role

/-- Handler `PATCH /users/:email/role` (src/index.js:215-238): guarded by
`verifyFbToken` only — the decoded email is never consulted, so any
authenticated caller may set any user's role.  Validates the role value,
updates, and 404s when nothing matched. -/
def patchUserRole (users : List UserDoc) (_decodedEmail : String)
    (targetEmail : String) (role : String) : Except String (List UserDoc) :=
  if role ∉ ["citizen", "staff", "admin"] then
    Except.error "Invalid role"
  else if users.all (fun u => u.email != targetEmail) then
    Except.error "User not found"
  else
    Except.ok (setRoleFirst users targetEmail role)

/-- Handler `PATCH /admin/users/:email/make-admin` (src/index.js:579-601):
guarded by `verifyFbToken` and `verifyAdmin`, then sets the target
role to "admin". -/
def makeAdmin (users : List UserDoc) (decodedEmail : String)
    (targetEmail : String) : Except String (List UserDoc) :=
  if ¬ verifyAdmin users decodedEmail then
    Except.error "Forbidden: admin only"
  else if users.all (fun u => u.email != targetEmail) then
    Except.error "User not found"
  else
    Except.ok (setRoleFirst users targetEmail "admin")

/-- Handler `POST /users` (src/index.js:243-265): overwrites any caller-supplied
`role` with "citizen", sets `createdAt` from the server clock, rejects a
duplicate email with 409, otherwise inserts. -/
def createUser (users : List UserDoc) (now : Nat) (body : UserDoc) :
    Except String (List UserDoc) :=
  let user : UserDoc := { body with role := some "citizen", createdAt := some now }
  if users.any (fun u => u.email == user.email) then
    Except.error "User already exists"
  else
    Except.ok (users ++ [user])

/-- One issue-mutating request of the `src/index.js` server, with the
actor email the token middleware would decode (raw `""` models an
absent `req.decoded_email` on the unauthenticated routes). -/
inductive EngineOp where
  | postStatus (decodedEmail : String) (target : Status) (note : Option String)
  | patchStatus (decodedEmail : String) (target : Status)
  | staffPatchStatus (decodedEmail : String) (target : Status) (message : Option String)
  | adminAssign (decodedEmail staffEmail : String) (staffName : Option String)
  | plainAssign (decodedEmail staffEmail : String) (staffName : Option String)
  | adminReject (decodedEmail : String) (reason : Option String)
  | plainReject (decodedEmail : String) (reason : Option String)
  | upvote (decodedEmail : String)
  | boost (session : CheckoutSession)

/-- A request that errors out leaves the stored issue as it was. -/
def okOr (issue : Issue) : Except String Issue → Issue
  | Except.ok i => i
  | Except.error _ => issue

/-- Effect of one request on the stored issue document at server time
`now`.  The boost case reuses `boostSuccess`, projecting away the
payments collection. -/
def applyOp (issue : Issue) (now : Nat) : EngineOp → Issue
  | EngineOp.postStatus e t n => okOr issue (postIssueStatus issue now e t n)
  | EngineOp.patchStatus e t => okOr issue (patchIssueStatus issue now e t)
  | EngineOp.staffPatchStatus e t m => staffPatchIssueStatus issue now e t m
  | EngineOp.adminAssign e s n => okOr issue (adminAssignIssue issue now e s n)
  | EngineOp.plainAssign e s n => okOr issue (plainAssignIssue issue now e s n)
  | EngineOp.adminReject e r => okOr issue (adminRejectIssue issue now e r)
  | EngineOp.plainReject e r => plainRejectIssue issue now e r
  | EngineOp.upvote e => okOr issue (upvoteIssue issue now e)
  | EngineOp.boost s => okOr issue (Except.map Prod.fst (boostSuccess issue [] s now))

/-- States of an issue reachable in the `src/index.js` server: created
by `POST /issues` and then mutated by any sequence of requests, the
wall clock never running backwards. -/
inductive IssueReachable : Nat → Issue → Prop where
  | created (now : Nat) (decodedEmail title description category : String)
      (image : Option String) (reporterRegion reporterDistrict : String)
      (issue : Issue)
      (h : createIssue now decodedEmail title description category image
             reporterRegion reporterDistrict = Except.ok issue) :
      IssueReachable now issue
  | step (t t' : Nat) (op : EngineOp) (issue : Issue)
      (ht : IssueReachable t issue) (hle : t ≤ t') :
      IssueReachable t' (applyOp issue t' op)

/-- Shape of one engine step on an issue: the timeline only grows, every
appended entry is stamped with the server clock, the owner email is
untouched, and the vote fields either stay or record exactly one new,
distinct, non-owner voter. -/
def StepShape (issue : Issue) (now : Nat) (j : Issue) : Prop :=
  (∃ l, j.timeline = issue.timeline ++ l ∧ ∀ e ∈ l, e.date = now) ∧
  j.userEmail = issue.userEmail ∧
  ((j.upvotes = issue.upvotes ∧ j.upvotedUsers = issue.upvotedUsers) ∨
   (∃ v, v ≠ issue.userEmail ∧ v ∉ issue.upvotedUsers ∧
      j.upvotes = issue.upvotes + 1 ∧
      j.upvotedUsers = issue.upvotedUsers ++ [v]))

/-- A concrete issue as produced by `POST /issues` at clock 0. -/
def sampleIssue : Issue :=
  { title := "Broken streetlight"
    description := "Lamp flickers all night"
    category := "Electricity"
    image := ""
    reporterRegion := "Dhaka"
    reporterDistrict := "Dhanmondi"
    userEmail := "owner@example.com"
    createdAt := 0
    status := Status.Pending
    priority := "Normal"
    upvotes := 0
    upvotedUsers := []
    assignedTo := none
    assignedStaff := none
    timeline := [{ status := some Status.Pending
                   message := "Issue reported by citizen"
                   updatedBy := "owner@example.com"
                   role := "Citizen"
                   date := 0 }] }

/-- A caller-controlled request body for the part_000 creation endpoint
that carries no timeline at all. -/
def c8Body : Issue :=
  { title := "Pothole"
    description := "deep"
    category := "Roads"
    image := ""
    reporterRegion := "Dhaka"
    reporterDistrict := "Gulshan"
    userEmail := "attacker@example.com"
    createdAt := 77
    status := Status.Resolved
    priority := "High"
    upvotes := 9
    upvotedUsers := []
    assignedTo := none
    assignedStaff := none
    timeline := [] }

/-- A caller-controlled body carrying a fabricated timeline entry with a
caller-chosen timestamp. -/
def c8BodyStale : Issue :=
  { c8Body with
    timeline := [{ status := none
                   message := "fabricated"
                   updatedBy := "caller"
                   role := "Citizen"
                   date := 999 }] }

/-- Modelled from the spec: the §4.3 transition table of the claim —
Pending→In-Progress, Pending→Closed, In-Progress→Working,
Working→Resolved, Resolved→Closed, plus Closed from any non-terminal
state when the actor is an admin ("Closed" and "Resolved" terminal). -/
def specReachable (current target : Status) (actorIsAdmin : Bool) : Bool :=
  match current, target with
  | Status.Pending, Status.InProgress => true
  | Status.Pending, Status.Closed => true
  | Status.InProgress, Status.Working => true
  | Status.Working, Status.Resolved => true
  | Status.Resolved, Status.Closed => true
  | Status.InProgress, Status.Closed => actorIsAdmin
  | Status.Working, Status.Closed => actorIsAdmin
  | _, _ => false

/-- Success test for an `Except` result. -/
def isOkE {ε α : Type} : Except ε α → Bool
  | Except.ok _ => true
  | Except.error _ => false

/-- The sample issue after an assignment to staff1. -/
def assignedIssue : Issue :=
  { sampleIssue with
    status := Status.InProgress
    assignedTo := some { email := "staff1@example.com", name := some "Staff One" } }

/-- A citizen user. -/
def alice : UserDoc :=
  { email := "alice@example.com"
    displayName := "Alice"
    role := some "citizen"
    isBlocked := false
    isPremium := false
    subscriptionDate := none
    createdAt := some 0 }

/-- Another citizen user. -/
def bob : UserDoc :=
  { email := "bob@example.com"
    displayName := "Bob"
    role := some "citizen"
    isBlocked := false
    isPremium := false
    subscriptionDate := none
    createdAt := some 0 }

/-- A registration body that tries to self-assign the admin role and a
caller-chosen timestamp. -/
def evilBody : UserDoc :=
  { email := "new@example.com"
    displayName := "New User"
    role := some "admin"
    isBlocked := false
    isPremium := false
    subscriptionDate := none
    createdAt := some 123456 }

/-- The checkout session used by the concrete replay runs. -/
def replaySession : CheckoutSession :=
  { id := "cs_test_0001"
    customerEmail := some "payer@example.com"
    amountTotal := some 500
    currency := some "usd"
    paymentStatus := some "paid"
    metaIssueId := some "64a1b2c3d4e5f60718293a4b"
    metaTitle := some "Broken streetlight" }

/-- First boost reconciliation of the replay session. -/
def boostFirst : Except String (Issue × List BoostPayment) :=
  boostSuccess sampleIssue [] replaySession 5

/-- Replay of the same session against the state left by the first
call. -/
def boostSecond : Except String (Issue × List BoostPayment) :=
  match boostFirst with
  | Except.ok r => boostSuccess r.1 r.2 replaySession 6
  | Except.error e => Except.error e

def boostPaymentsOf : Except String (Issue × List BoostPayment) → List BoostPayment
  | Except.ok r => r.2
  | Except.error _ => []

def boostIssueOf : Except String (Issue × List BoostPayment) → Issue
  | Except.ok r => r.1
  | Except.error _ => sampleIssue

/-- A premium candidate user matching the replay session's payer. -/
def payer : UserDoc :=
  { email := "payer@example.com"
    displayName := "Payer"
    role := some "citizen"
    isBlocked := false
    isPremium := false
    subscriptionDate := none
    createdAt := some 0 }

/-- First subscription reconciliation of the replay session. -/
def subFirst : Except String (List UserDoc × List SubPayment) :=
  subscribeSuccess [payer] [] replaySession 11

/-- Replay of the same subscription session. -/
def subSecond : Except String (List UserDoc × List SubPayment) :=
  match subFirst with
  | Except.ok r => subscribeSuccess r.1 r.2 replaySession 12
  | Except.error e => Except.error e

def subPaymentsOf : Except String (List UserDoc × List SubPayment) → List SubPayment
  | Except.ok r => r.2
  | Except.error _ => []

theorem stepShape_refl (issue : Issue) (now : Nat) : StepShape issue now issue :=
  ⟨⟨[], by simp, by simp⟩, rfl, Or.inl ⟨rfl, rfl⟩⟩

theorem stepShape_of_addTimelineEntry (issue j : Issue) (now : Nat)
    (s : Option Status) (m u r : String)
    (hto : j.timeline = issue.timeline) (hue : j.userEmail = issue.userEmail)
    (hup : j.upvotes = issue.upvotes) (huu : j.upvotedUsers = issue.upvotedUsers) :
    StepShape issue now (addTimelineEntry j now s m u r) :=
  ⟨⟨[{ status := s, message := jsOr m "", updatedBy := jsOr u "System",
       role := jsOr r "System", date := now }],
    by simp [addTimelineEntry, hto],
    by intro e he; simp at he; rw [he]⟩,
   by simp [addTimelineEntry, hue],
   Or.inl ⟨by simp [addTimelineEntry, hup], by simp [addTimelineEntry, huu]⟩⟩

theorem applyOp_stepShape (issue : Issue) (now : Nat) (op : EngineOp) :
    StepShape issue now (applyOp issue now op) := by
  cases op with
  | postStatus e t n =>
    by_cases h : t ∈ postStatusAllowed
    · have hred : applyOp issue now (EngineOp.postStatus e t n) =
          addTimelineEntry { issue with status := t } now (some t)
            (jsOrOpt n ("Status changed to " ++ t.toText)) e "Staff" := by
        simp [applyOp, postIssueStatus, h, okOr]
      rw [hred]
      exact stepShape_of_addTimelineEntry issue _ now _ _ _ _ rfl rfl rfl rfl
    · have hred : applyOp issue now (EngineOp.postStatus e t n) = issue := by
        simp [applyOp, postIssueStatus, h, okOr]
      rw [hred]; exact stepShape_refl issue now
  | patchStatus e t =>
    cases hA : issue.assignedStaff with
    | none =>
      have hred : applyOp issue now (EngineOp.patchStatus e t) = issue := by
        simp [applyOp, patchIssueStatus, hA, okOr]
      rw [hred]; exact stepShape_refl issue now
    | some a =>
      by_cases h1 : a.email ≠ e
      · have hred : applyOp issue now (EngineOp.patchStatus e t) = issue := by
          simp [applyOp, patchIssueStatus, hA, h1, okOr]
        rw [hred]; exact stepShape_refl issue now
      · by_cases h2 : t ∈ patchAllowed issue.status
        · have hred : applyOp issue now (EngineOp.patchStatus e t) =
              { issue with
                status := t
                timeline := issue.timeline ++
                  [{ status := some t
                     message := "Status changed to " ++ t.toText
                     updatedBy := e
                     role := "Staff"
                     date := now }] } := by
            simp [applyOp, patchIssueStatus, hA, h1, h2, okOr]
          rw [hred]
          exact ⟨⟨_, rfl, by intro x hx; simp at hx; rw [hx]⟩, rfl,
            Or.inl ⟨rfl, rfl⟩⟩
        · have hred : applyOp issue now (EngineOp.patchStatus e t) = issue := by
            simp [applyOp, patchIssueStatus, hA, h1, h2, okOr]
          rw [hred]; exact stepShape_refl issue now
  | staffPatchStatus e t m =>
    exact ⟨⟨_, rfl, by intro x hx; simp [applyOp, staffPatchIssueStatus] at hx; rw [hx]⟩,
      rfl, Or.inl ⟨rfl, rfl⟩⟩
  | adminAssign e s n =>
    by_cases h1 : s = ""
    · have hred : applyOp issue now (EngineOp.adminAssign e s n) = issue := by
        simp [applyOp, adminAssignIssue, h1, okOr]
      rw [hred]; exact stepShape_refl issue now
    · by_cases h2 : issue.assignedTo.isSome
      · have hred : applyOp issue now (EngineOp.adminAssign e s n) = issue := by
          simp [applyOp, adminAssignIssue, h1, h2, okOr]
        rw [hred]; exact stepShape_refl issue now
      · have hred : applyOp issue now (EngineOp.adminAssign e s n) =
            addTimelineEntry
              { issue with
                assignedTo := some { email := s, name := jsOrNull n }
                status := Status.InProgress }
              now (some Status.InProgress)
              ("Issue assigned to Staff: " ++ jsOrOpt n s) e "Admin" := by
          simp [applyOp, adminAssignIssue, h1, h2, okOr]
        rw [hred]
        exact stepShape_of_addTimelineEntry issue _ now _ _ _ _ rfl rfl rfl rfl
  | plainAssign e s n =>
    by_cases h1 : s = ""
    · have hred : applyOp issue now (EngineOp.plainAssign e s n) = issue := by
        simp [applyOp, plainAssignIssue, h1, okOr]
      rw [hred]; exact stepShape_refl issue now
    · have hred : applyOp issue now (EngineOp.plainAssign e s n) =
          addTimelineEntry
            { issue with
              assignedTo := some { email := s, name := jsOrNull n }
              status := Status.InProgress }
            now (some Status.InProgress)
            ("Issue assigned to Staff: " ++ jsOrOpt n s) e "Admin" := by
        simp [applyOp, plainAssignIssue, h1, okOr]
      rw [hred]
      exact stepShape_of_addTimelineEntry issue _ now _ _ _ _ rfl rfl rfl rfl
  | adminReject e r =>
    by_cases h1 : issue.status ≠ Status.Pending
    · have hred : applyOp issue now (EngineOp.adminReject e r) = issue := by
        simp [applyOp, adminRejectIssue, h1, okOr]
      rw [hred]; exact stepShape_refl issue now
    · have hred : applyOp issue now (EngineOp.adminReject e r) =
          addTimelineEntry { issue with status := Status.Closed } now
            (some Status.Closed)
            ("Issue rejected by admin. Reason: " ++ jsOrOpt r "Not specified")
            e "Admin" := by
        simp [applyOp, adminRejectIssue, h1, okOr]
      rw [hred]
      exact stepShape_of_addTimelineEntry issue _ now _ _ _ _ rfl rfl rfl rfl
  | plainReject e r =>
    exact stepShape_of_addTimelineEntry issue _ now _ _ _ _ rfl rfl rfl rfl
  | upvote e =>
    by_cases h1 : issue.userEmail = e
    · have hred : applyOp issue now (EngineOp.upvote e) = issue := by
        simp [applyOp, upvoteIssue, h1, okOr]
      rw [hred]; exact stepShape_refl issue now
    · by_cases h2 : e ∈ issue.upvotedUsers
      · have hred : applyOp issue now (EngineOp.upvote e) = issue := by
          simp [applyOp, upvoteIssue, h1, h2, okOr]
        rw [hred]; exact stepShape_refl issue now
      · have hred : applyOp issue now (EngineOp.upvote e) =
            addTimelineEntry
              { issue with
                upvotes := issue.upvotes + 1
                upvotedUsers := issue.upvotedUsers ++ [e] }
              now (some issue.status) ("Issue upvoted by " ++ e) e "Citizen" := by
          simp [applyOp, upvoteIssue, h1, h2, okOr]
        rw [hred]
        refine ⟨⟨_, rfl, by intro x hx; simp [addTimelineEntry] at hx; rw [hx]⟩,
          rfl, Or.inr ⟨e, fun hv => h1 hv.symm, h2, rfl, rfl⟩⟩
  | boost s =>
    cases hI : s.metaIssueId with
    | none =>
      have hred : applyOp issue now (EngineOp.boost s) = issue := by
        simp [applyOp, boostSuccess, hI, okOr, Except.map]
      rw [hred]; exact stepShape_refl issue now
    | some issueId =>
      by_cases h1 : issueId = ""
      · have hred : applyOp issue now (EngineOp.boost s) = issue := by
          simp [applyOp, boostSuccess, hI, h1, okOr, Except.map]
        rw [hred]; exact stepShape_refl issue now
      · by_cases h2 : isValidObjectId issueId
        · have hred : applyOp issue now (EngineOp.boost s) =
              addTimelineEntry { issue with priority := "High" } now none
                "Issue boosted by payment" ((s.customerEmail).getD "") "Citizen" := by
            simp [applyOp, boostSuccess, hI, h1, h2, okOr, Except.map]
          rw [hred]
          exact stepShape_of_addTimelineEntry issue _ now _ _ _ _ rfl rfl rfl rfl
        · have hred : applyOp issue now (EngineOp.boost s) = issue := by
            simp [applyOp, boostSuccess, hI, h1, h2, okOr, Except.map]
          rw [hred]; exact stepShape_refl issue now

theorem pairwise_of_const_date (l : List TimelineEntry) (t : Nat)
    (h : ∀ e ∈ l, e.date = t) :
    l.Pairwise (fun a b => a.date ≤ b.date) := by
  induction l with
  | nil => exact List.Pairwise.nil
  | cons a l ih =>
    refine List.Pairwise.cons ?_ (ih fun e he => h e (List.mem_cons_of_mem a he))
    intro b hb
    rw [h a (List.mem_cons_self a l), h b (List.mem_cons_of_mem a hb)]

/-- The upvote-ledger invariant holds in every reachable state: the
counter equals the length of the (duplicate-free) voter list and the
owner never appears in it. -/
theorem reachable_voteInv (t : Nat) (issue : Issue)
    (h : IssueReachable t issue) :
    issue.upvotes = issue.upvotedUsers.length ∧ issue.upvotedUsers.Nodup ∧
    issue.userEmail ∉ issue.upvotedUsers := by
  induction h with
  | created now de ti d c im rr rd issue h =>
    unfold createIssue at h
    split at h
    · exact Except.noConfusion h
    · injection h with h
      subst h
      exact ⟨rfl, List.nodup_nil, by simp⟩
  | step t t' op issue ht hle ih =>
    obtain ⟨-, hue, hvotes⟩ := applyOp_stepShape issue t' op
    obtain ⟨hlen, hnodup, hown⟩ := ih
    rw [hue]
    cases hvotes with
    | inl hsame => rw [hsame.1, hsame.2]; exact ⟨hlen, hnodup, hown⟩
    | inr hnew =>
      obtain ⟨v, hv1, hv2, hup, huu⟩ := hnew
      rw [hup, huu]
      refine ⟨by rw [hlen]; simp, ?_, ?_⟩
      · simp [List.nodup_append, hnodup, hv2]
      · simp only [List.mem_append, List.mem_singleton]
        rintro (hmem | heq)
        · exact hown hmem
        · exact hv1 heq.symm

/-- The audit-timeline invariant holds in every reachable state of an
issue created by `POST /issues` in src/index.js: the timeline is
non-empty, its timestamps are non-decreasing in append order, and every
timestamp is at most the current server clock. -/
theorem reachable_timelineInv (t : Nat) (issue : Issue)
    (h : IssueReachable t issue) :
    issue.timeline ≠ [] ∧
    issue.timeline.Pairwise (fun a b => a.date ≤ b.date) ∧
    ∀ e ∈ issue.timeline, e.date ≤ t := by
  induction h with
  | created now de ti d c im rr rd issue h =>
    unfold createIssue at h
    split at h
    · exact Except.noConfusion h
    · injection h with h
      subst h
      refine ⟨by simp, List.pairwise_singleton _ _, ?_⟩
      intro e he
      simp at he
      rw [he]
  | step t t' op issue ht hle ih =>
    obtain ⟨⟨l, hl, hdates⟩, -, -⟩ := applyOp_stepShape issue t' op
    obtain ⟨hne, hpw, hbd⟩ := ih
    rw [hl]
    refine ⟨?_, ?_, ?_⟩
    · intro hcontra
      exact hne (List.append_eq_nil.mp hcontra).1
    · rw [List.pairwise_append]
      refine ⟨hpw, pairwise_of_const_date l t' hdates, ?_⟩
      intro a ha b hb
      rw [hdates b hb]
      exact le_trans (hbd a ha) hle
    · intro e he
      rcases List.mem_append.mp he with h1 | h2
      · exact le_trans (hbd e h1) hle
      · rw [hdates e h2]

theorem sampleIssue_created :
    createIssue 0 "owner@example.com" "Broken streetlight"
      "Lamp flickers all night" "Electricity" none "Dhaka" "Dhanmondi" =
      Except.ok sampleIssue := by
  rfl

/-- Claim C3: for every issue at every reachable state (created by the
issue-creation route and mutated by any sequence of engine requests),
the stored upvote count equals the cardinality of the voter-email set,
and the owner's email is never a member of that set. -/
theorem C3_upvote_invariant (t : Nat) (issue : Issue)
    (h : IssueReachable t issue) :
    issue.upvotes = issue.upvotedUsers.toFinset.card ∧
    issue.userEmail ∉ issue.upvotedUsers := by
  obtain ⟨hlen, hnodup, hmem⟩ := reachable_voteInv t issue h
  refine ⟨?_, hmem⟩
  rw [List.toFinset_card_of_nodup hnodup, hlen]

/-- Witness for C3 at a concrete reachable state. -/
theorem C3_upvote_invariant_witness :
    sampleIssue.upvotes = sampleIssue.upvotedUsers.toFinset.card ∧
    sampleIssue.userEmail ∉ sampleIssue.upvotedUsers :=
  C3_upvote_invariant 0 sampleIssue
    (IssueReachable.created 0 "owner@example.com" "Broken streetlight"
      "Lamp flickers all night" "Electricity" none "Dhaka" "Dhanmondi"
      sampleIssue sampleIssue_created)

theorem jsOr_empty (s : String) : jsOr s "" = s := by
  unfold jsOr
  split <;> simp_all

/-- Claim C4: the upvote operation fails SelfVote when the voter is the
owner, fails DuplicateVote when the voter is already in the voter set,
and otherwise increments the count by one, appends the voter to the
set, and appends a timeline entry with role "Citizen" whose message
names the voter, stamped with the server clock. -/
theorem C4_upvote_contract (issue : Issue) (now : Nat) (voter : String) :
    (voter = issue.userEmail →
      upvoteIssue issue now voter =
        Except.error "You cannot upvote your own issue") ∧
    (voter ≠ issue.userEmail → voter ∈ issue.upvotedUsers →
      upvoteIssue issue now voter =
        Except.error "You have already upvoted this issue") ∧
    (voter ≠ issue.userEmail → voter ∉ issue.upvotedUsers →
      ∃ entry i',
        upvoteIssue issue now voter = Except.ok i' ∧
        i'.upvotes = issue.upvotes + 1 ∧
        i'.upvotedUsers = issue.upvotedUsers ++ [voter] ∧
        i'.timeline = issue.timeline ++ [entry] ∧
        entry.role = "Citizen" ∧
        entry.message = "Issue upvoted by " ++ voter ∧
        entry.date = now) := by
  refine ⟨?_, ?_, ?_⟩
  · intro h
    simp [upvoteIssue, h.symm]
  · intro h1 h2
    have h1' : ¬ issue.userEmail = voter := fun hc => h1 hc.symm
    simp [upvoteIssue, h1', h2]
  · intro h1 h2
    have h1' : ¬ issue.userEmail = voter := fun hc => h1 hc.symm
    refine ⟨{ status := some issue.status
              message := jsOr ("Issue upvoted by " ++ voter) ""
              updatedBy := jsOr voter "System"
              role := jsOr "Citizen" "System"
              date := now },
            addTimelineEntry
              { issue with
                upvotes := issue.upvotes + 1
                upvotedUsers := issue.upvotedUsers ++ [voter] }
              now (some issue.status) ("Issue upvoted by " ++ voter) voter
              "Citizen",
            ?_, ?_, ?_, rfl, ?_, ?_, rfl⟩
    · simp [upvoteIssue, h1', h2]
    · simp [addTimelineEntry]
    · simp [addTimelineEntry]
    · show jsOr "Citizen" "System" = "Citizen"
      decide
    · show jsOr ("Issue upvoted by " ++ voter) "" = "Issue upvoted by " ++ voter
      exact jsOr_empty _

/-- Witness for C4: a fresh non-owner vote on the sample issue. -/
theorem C4_upvote_contract_witness :
    ("citizenA@example.com" ≠ sampleIssue.userEmail) ∧
    ("citizenA@example.com" ∉ sampleIssue.upvotedUsers) ∧
    ∃ entry i',
      upvoteIssue sampleIssue 9 "citizenA@example.com" = Except.ok i' ∧
      i'.upvotes = sampleIssue.upvotes + 1 ∧
      i'.upvotedUsers = sampleIssue.upvotedUsers ++ ["citizenA@example.com"] ∧
      i'.timeline = sampleIssue.timeline ++ [entry] ∧
      entry.role = "Citizen" ∧
      entry.message = "Issue upvoted by " ++ "citizenA@example.com" ∧
      entry.date = 9 :=
  ⟨by decide, by decide,
   (C4_upvote_contract sampleIssue 9 "citizenA@example.com").2.2
     (by decide) (by decide)⟩

/-- Claim C8 (amended): for issues created by `POST /issues` in
src/index.js, at every reachable state the timeline is non-empty, its
timestamps are non-decreasing in append order and bounded by the server
clock, and every engine request leaves the old timeline as a prefix,
appending only entries stamped with the clock at append time (never a
caller-supplied date). -/
theorem C8_timeline_append_only (t : Nat) (issue : Issue)
    (h : IssueReachable t issue) :
    issue.timeline ≠ [] ∧
    issue.timeline.Pairwise (fun a b => a.date ≤ b.date) ∧
    (∀ e ∈ issue.timeline, e.date ≤ t) ∧
    ∀ (t' : Nat) (op : EngineOp), ∃ l,
      (applyOp issue t' op).timeline = issue.timeline ++ l ∧
      ∀ e ∈ l, e.date = t' := by
  obtain ⟨h1, h2, h3⟩ := reachable_timelineInv t issue h
  exact ⟨h1, h2, h3, fun t' op => (applyOp_stepShape issue t' op).1⟩

/-- Witness for C8 at a concrete reachable state and a concrete step. -/
theorem C8_timeline_append_only_witness :
    sampleIssue.timeline ≠ [] ∧
    sampleIssue.timeline.Pairwise (fun a b => a.date ≤ b.date) ∧
    (∀ e ∈ sampleIssue.timeline, e.date ≤ 0) ∧
    (∃ l, (applyOp sampleIssue 4 (EngineOp.upvote "citizenA@example.com")).timeline =
        sampleIssue.timeline ++ l ∧ ∀ e ∈ l, e.date = 4) :=
  have h := C8_timeline_append_only 0 sampleIssue
    (IssueReachable.created 0 "owner@example.com" "Broken streetlight"
      "Lamp flickers all night" "Electricity" none "Dhaka" "Dhanmondi"
      sampleIssue sampleIssue_created)
  ⟨h.1, h.2.1, h.2.2.1, h.2.2.2 4 (EngineOp.upvote "citizenA@example.com")⟩

/-- Claim C8 counterexample: the part_000 creation endpoint
(src/unnamed/part_000:140-162) inserts the request body without
initialising a timeline, so a freshly created issue can have an empty
timeline, and a caller-supplied timeline entry with a caller-chosen
timestamp is stored verbatim. -/
theorem C8_counterexample :
    (createIssuePart000 3 "citizen@example.com" c8Body).timeline = [] ∧
    (createIssuePart000 3 "citizen@example.com" c8BodyStale).timeline =
      [{ status := none
         message := "fabricated"
         updatedBy := "caller"
         role := "Citizen"
         date := 999 }] :=
  ⟨rfl, rfl⟩

/-- Every transition the PATCH handler's chain table admits is also in
the spec's table. -/
theorem patchAllowed_subset_spec (s t : Status)
    (h : specReachable s t true = false) : t ∉ patchAllowed s := by
  revert h
  cases s <;> cases t <;> decide

/-- Claim C1 (amended): the `PATCH /issues/:id/status` handler rejects —
with no write to status or timeline — every request whose target is not
reachable from the current status in the spec's transition table (the
error is "Forbidden" when the caller does not match `assignedStaff`,
otherwise "Invalid status transition").  The `POST /issues/:id/status`
handler has no such validation (see the counterexample). -/
theorem C1_patch_rejects_unreachable (issue : Issue) (now : Nat)
    (decodedEmail : String) (target : Status)
    (h : specReachable issue.status target true = false) :
    patchIssueStatus issue now decodedEmail target =
      Except.error "Forbidden" ∨
    patchIssueStatus issue now decodedEmail target =
      Except.error "Invalid status transition" := by
  have hmem : target ∉ patchAllowed issue.status :=
    patchAllowed_subset_spec issue.status target h
  unfold patchIssueStatus
  cases hA : issue.assignedStaff with
  | none => exact Or.inl rfl
  | some a =>
    by_cases h1 : a.email ≠ decodedEmail
    · left
      simp [h1]
    · right
      simp [h1, hmem]

/-- Witness for C1 (amended): Pending→Resolved is not in the table and
the PATCH handler rejects it. -/
theorem C1_patch_rejects_unreachable_witness :
    specReachable sampleIssue.status Status.Resolved true = false ∧
    (patchIssueStatus sampleIssue 3 "staff@example.com" Status.Resolved =
       Except.error "Forbidden" ∨
     patchIssueStatus sampleIssue 3 "staff@example.com" Status.Resolved =
       Except.error "Invalid status transition") :=
  ⟨rfl, C1_patch_rejects_unreachable sampleIssue 3 "staff@example.com"
    Status.Resolved rfl⟩

/-- Claim C1 counterexample: Pending→Resolved is reachable for no actor
per the table, yet `POST /issues/:id/status` applies it: the request
succeeds, the status becomes Resolved and the timeline changes. -/
theorem C1_counterexample :
    specReachable Status.Pending Status.Resolved true = false ∧
    specReachable Status.Pending Status.Resolved false = false ∧
    isOkE (postIssueStatus sampleIssue 7 "staff@example.com"
      Status.Resolved none) = true ∧
    (okOr sampleIssue (postIssueStatus sampleIssue 7 "staff@example.com"
      Status.Resolved none)).status = Status.Resolved ∧
    (okOr sampleIssue (postIssueStatus sampleIssue 7 "staff@example.com"
      Status.Resolved none)).timeline ≠ sampleIssue.timeline := by
  refine ⟨rfl, rfl, rfl, rfl, by decide⟩

/-- Claim C5 (amended): on the admin endpoint, assignment is compound —
with no existing assignment it sets `assignedTo` and status In-Progress
in a single update (whatever the prior status was) plus an Admin
timeline entry, and an issue already carrying a non-null assignment
fails AlreadyAssigned with no write; the non-admin assign endpoint
performs no AlreadyAssigned check and succeeds regardless of any
existing assignment. -/
theorem C5_assignment_contract (issue : Issue) (now : Nat)
    (decodedEmail staffEmail : String) (staffName : Option String)
    (hse : staffEmail ≠ "") :
    (issue.assignedTo.isSome = true →
      adminAssignIssue issue now decodedEmail staffEmail staffName =
        Except.error "Already assigned") ∧
    (issue.assignedTo = none →
      ∃ i', adminAssignIssue issue now decodedEmail staffEmail staffName =
          Except.ok i' ∧
        i'.assignedTo = some { email := staffEmail, name := jsOrNull staffName } ∧
        i'.status = Status.InProgress ∧
        ∃ e, i'.timeline = issue.timeline ++ [e] ∧ e.role = "Admin" ∧
          e.date = now) ∧
    (∃ i2, plainAssignIssue issue now decodedEmail staffEmail staffName =
        Except.ok i2 ∧
      i2.assignedTo = some { email := staffEmail, name := jsOrNull staffName } ∧
      i2.status = Status.InProgress) := by
  refine ⟨?_, ?_, ?_⟩
  · intro h
    simp [adminAssignIssue, hse, h]
  · intro h
    refine ⟨addTimelineEntry
        { issue with
          assignedTo := some { email := staffEmail, name := jsOrNull staffName }
          status := Status.InProgress }
        now (some Status.InProgress)
        ("Issue assigned to Staff: " ++ jsOrOpt staffName staffEmail)
        decodedEmail "Admin", ?_, rfl, rfl, ?_⟩
    · simp [adminAssignIssue, hse, h]
    · refine ⟨_, rfl, ?_, rfl⟩
      show jsOr "Admin" "System" = "Admin"
      decide
  · refine ⟨addTimelineEntry
        { issue with
          assignedTo := some { email := staffEmail, name := jsOrNull staffName }
          status := Status.InProgress }
        now (some Status.InProgress)
        ("Issue assigned to Staff: " ++ jsOrOpt staffName staffEmail)
        decodedEmail "Admin", ?_, rfl, rfl⟩
    simp [plainAssignIssue, hse]

/-- Witness for C5 at concrete inputs: AlreadyAssigned on the assigned
issue, and a successful compound assignment on the fresh issue. -/
theorem C5_assignment_contract_witness :
    (adminAssignIssue assignedIssue 4 "admin@example.com"
       "staff2@example.com" none = Except.error "Already assigned") ∧
    (∃ i', adminAssignIssue sampleIssue 4 "admin@example.com"
        "staff2@example.com" none = Except.ok i' ∧
      i'.assignedTo = some { email := "staff2@example.com", name := jsOrNull none } ∧
      i'.status = Status.InProgress ∧
      ∃ e, i'.timeline = sampleIssue.timeline ++ [e] ∧ e.role = "Admin" ∧
        e.date = 4) :=
  ⟨(C5_assignment_contract assignedIssue 4 "admin@example.com"
      "staff2@example.com" none (by decide)).1 rfl,
   (C5_assignment_contract sampleIssue 4 "admin@example.com"
      "staff2@example.com" none (by decide)).2.1 rfl⟩

/-- Claim C5 counterexample: the non-admin assign endpoint re-assigns an
issue that already carries a non-null assignment instead of failing
AlreadyAssigned, overwriting the stored assignment. -/
theorem C5_counterexample :
    assignedIssue.assignedTo =
      some { email := "staff1@example.com", name := some "Staff One" } ∧
    isOkE (plainAssignIssue assignedIssue 4 "someone@example.com"
      "staff2@example.com" none) = true ∧
    (okOr assignedIssue (plainAssignIssue assignedIssue 4 "someone@example.com"
      "staff2@example.com" none)).assignedTo =
      some { email := "staff2@example.com", name := none } :=
  ⟨rfl, rfl, rfl⟩

/-- Claim C6 (amended): the admin rejection endpoint succeeds only when
the status is Pending — setting Closed and appending an Admin timeline
entry carrying the reason — and fails with "Only pending issues can be
rejected" (no write) from any other status, terminal or not; the
separate unauthenticated reject endpoint closes an issue from any
status, appending the same Admin entry. -/
theorem C6_reject_contract (issue : Issue) (now : Nat)
    (decodedEmail : String) (reason : Option String) :
    (issue.status = Status.Pending →
      ∃ i', adminRejectIssue issue now decodedEmail reason = Except.ok i' ∧
        i'.status = Status.Closed ∧
        ∃ e, i'.timeline = issue.timeline ++ [e] ∧ e.role = "Admin" ∧
          e.message = "Issue rejected by admin. Reason: " ++
            jsOrOpt reason "Not specified" ∧
          e.date = now) ∧
    (issue.status ≠ Status.Pending →
      adminRejectIssue issue now decodedEmail reason =
        Except.error "Only pending issues can be rejected") ∧
    ((plainRejectIssue issue now decodedEmail reason).status = Status.Closed ∧
      ∃ e, (plainRejectIssue issue now decodedEmail reason).timeline =
          issue.timeline ++ [e] ∧ e.role = "Admin" ∧
        e.message = "Issue rejected by admin. Reason: " ++
          jsOrOpt reason "Not specified" ∧
        e.date = now) := by
  refine ⟨?_, ?_, rfl, ?_⟩
  · intro h
    refine ⟨addTimelineEntry { issue with status := Status.Closed } now
        (some Status.Closed)
        ("Issue rejected by admin. Reason: " ++ jsOrOpt reason "Not specified")
        decodedEmail "Admin", ?_, rfl, ?_⟩
    · simp [adminRejectIssue, h]
    · refine ⟨_, rfl, ?_, ?_, rfl⟩
      · show jsOr "Admin" "System" = "Admin"
        decide
      · show jsOr ("Issue rejected by admin. Reason: " ++
            jsOrOpt reason "Not specified") "" =
          "Issue rejected by admin. Reason: " ++ jsOrOpt reason "Not specified"
        exact jsOr_empty _
  · intro h
    simp [adminRejectIssue, h]
  · refine ⟨_, rfl, ?_, ?_, rfl⟩
    · show jsOr "Admin" "System" = "Admin"
      decide
    · show jsOr ("Issue rejected by admin. Reason: " ++
          jsOrOpt reason "Not specified") "" =
        "Issue rejected by admin. Reason: " ++ jsOrOpt reason "Not specified"
      exact jsOr_empty _

/-- Witness for C6 at concrete inputs: a Pending issue is rejected to
Closed with the reason recorded; an In-Progress issue is refused. -/
theorem C6_reject_contract_witness :
    (∃ i', adminRejectIssue sampleIssue 2 "admin@example.com"
        (some "duplicate") = Except.ok i' ∧
      i'.status = Status.Closed ∧
      ∃ e, i'.timeline = sampleIssue.timeline ++ [e] ∧ e.role = "Admin" ∧
        e.message = "Issue rejected by admin. Reason: " ++
          jsOrOpt (some "duplicate") "Not specified" ∧
        e.date = 2) ∧
    adminRejectIssue assignedIssue 2 "admin@example.com" (some "duplicate") =
      Except.error "Only pending issues can be rejected" :=
  ⟨(C6_reject_contract sampleIssue 2 "admin@example.com"
      (some "duplicate")).1 rfl,
   (C6_reject_contract assignedIssue 2 "admin@example.com"
      (some "duplicate")).2.1 (by decide)⟩

/-- Claim C6 counterexample: an admin rejection of an In-Progress
(non-terminal) issue fails instead of closing it — rejection IS
restricted to status Pending on the admin endpoint. -/
theorem C6_counterexample :
    assignedIssue.status = Status.InProgress ∧
    adminRejectIssue assignedIssue 4 "admin@example.com" (some "duplicate") =
      Except.error "Only pending issues can be rejected" :=
  ⟨rfl, rfl⟩

/-- Claim C7 (amended): the src/index.js delete endpoint checks
ownership only — a non-owner (admins included) fails Forbidden with the
issue kept, but the owner can delete at any status; the part_000 delete
endpoint checks status only — it fails InvalidState past Pending but
lets any caller delete a Pending issue. -/
theorem C7_delete_contract (issue : Issue) (decodedEmail : String) :
    (issue.userEmail ≠ decodedEmail →
      deleteIssue issue decodedEmail =
        Except.error "Forbidden: only owner can delete this issue") ∧
    (issue.userEmail = decodedEmail →
      deleteIssue issue decodedEmail = Except.ok ()) ∧
    (issue.status ≠ Status.Pending →
      deleteIssuePart000 issue =
        Except.error "Only pending issues can be deleted") ∧
    (issue.status = Status.Pending →
      deleteIssuePart000 issue = Except.ok ()) := by
  refine ⟨?_, ?_, ?_, ?_⟩ <;> intro h <;>
    simp [deleteIssue, deleteIssuePart000, h]

/-- Witness for C7: the owner deletes an In-Progress issue through the
index.js endpoint; the part_000 endpoint refuses the same issue. -/
theorem C7_delete_contract_witness :
    deleteIssue assignedIssue "owner@example.com" = Except.ok () ∧
    deleteIssuePart000 assignedIssue =
      Except.error "Only pending issues can be deleted" :=
  ⟨(C7_delete_contract assignedIssue "owner@example.com").2.1 rfl,
   (C7_delete_contract assignedIssue "owner@example.com").2.2.1 (by decide)⟩

/-- Claim C7 counterexample: the owner successfully deletes an issue
whose status has progressed past Pending (claim requires InvalidState),
and the part_000 endpoint deletes a Pending issue with no actor check at
all (the handler takes no actor). -/
theorem C7_counterexample :
    assignedIssue.status ≠ Status.Pending ∧
    deleteIssue assignedIssue "owner@example.com" = Except.ok () ∧
    deleteIssuePart000 sampleIssue = Except.ok () :=
  ⟨by decide, rfl, rfl⟩

/-- Claim C9 (amended): only the make-admin endpoint is gated on the
admin role — a non-admin actor gets "Forbidden: admin only" and no role
is written; the general `PATCH /users/:email/role` endpoint requires
only an authenticated token and lets ANY authenticated actor set any
user's role, so roles are not mutated only by admin actions. -/
theorem C9_role_mutation_contract (users : List UserDoc)
    (decodedEmail targetEmail : String)
    (h : verifyAdmin users decodedEmail = false) :
    makeAdmin users decodedEmail targetEmail =
      Except.error "Forbidden: admin only" ∧
    ∀ role, role ∈ ["citizen", "staff", "admin"] →
      users.all (fun u => u.email != targetEmail) = false →
      patchUserRole users decodedEmail targetEmail role =
        Except.ok (setRoleFirst users targetEmail role) := by
  constructor
  · simp [makeAdmin, h]
  · intro role hrole hmatch
    simp [patchUserRole, hrole, hmatch]

/-- Witness for C9: the non-admin alice is refused by make-admin yet
allowed by the general role route. -/
theorem C9_role_mutation_contract_witness :
    makeAdmin [alice, bob] "alice@example.com" "bob@example.com" =
      Except.error "Forbidden: admin only" ∧
    patchUserRole [alice, bob] "alice@example.com" "bob@example.com" "staff" =
      Except.ok (setRoleFirst [alice, bob] "bob@example.com" "staff") :=
  have h := C9_role_mutation_contract [alice, bob] "alice@example.com"
    "bob@example.com" rfl
  ⟨h.1, h.2 "staff" (by decide) rfl⟩

/-- Claim C9 counterexample: the authenticated non-admin alice changes
bob's stored role to "admin" through `PATCH /users/:email/role`, so a
non-admin request does mutate a user's role. -/
theorem C9_counterexample :
    verifyAdmin [alice, bob] "alice@example.com" = false ∧
    patchUserRole [alice, bob] "alice@example.com" "bob@example.com" "admin" =
      Except.ok [alice, { bob with role := some "admin" }] ∧
    bob.role ≠ some "admin" :=
  ⟨rfl, rfl, by decide⟩

/-- Claim C10: every user created through the public registration route
is stored with role "citizen" — whatever role the caller supplied in
the body — and with the engine-assigned creation timestamp. -/
theorem C10_registration_forces_citizen (users : List UserDoc) (now : Nat)
    (body : UserDoc)
    (h : users.any (fun u => u.email == body.email) = false) :
    ∃ u, createUser users now body = Except.ok (users ++ [u]) ∧
      u.role = some "citizen" ∧ u.createdAt = some now ∧
      u.email = body.email ∧ u.displayName = body.displayName := by
  refine ⟨{ body with role := some "citizen", createdAt := some now },
    ?_, rfl, rfl, rfl, rfl⟩
  simp [createUser, h]

/-- Witness for C10: registering with role "admin" in the body still
stores role "citizen" and the server clock. -/
theorem C10_registration_forces_citizen_witness :
    ([] : List UserDoc).any (fun u => u.email == evilBody.email) = false ∧
    ∃ u, createUser [] 5 evilBody = Except.ok ([] ++ [u]) ∧
      u.role = some "citizen" ∧ u.createdAt = some 5 ∧
      u.email = evilBody.email ∧ u.displayName = evilBody.displayName :=
  ⟨rfl, C10_registration_forces_citizen [] 5 evilBody rfl⟩

/-- Claim C2 (amended): neither reconciliation flow consults the
payments collection before applying its state change — every successful
confirmation call re-applies the mutation and inserts a fresh payment
record keyed by the session's transaction id (and, for boost, appends
another timeline entry), whatever records with that id already exist. -/
theorem C2_reconciliation_unguarded (issue : Issue)
    (payments : List BoostPayment) (session : CheckoutSession) (now : Nat)
    (users : List UserDoc) (subPayments : List SubPayment)
    (issueId : String) (hid : session.metaIssueId = some issueId)
    (hne : issueId ≠ "") (hval : isValidObjectId issueId = true)
    (email : String) (hem : session.customerEmail = some email)
    (hene : email ≠ "") :
    (∃ i' p', boostSuccess issue payments session now =
        Except.ok (i', payments ++ [p']) ∧
      p'.transactionId = session.id ∧ i'.priority = "High" ∧
      ∃ e, i'.timeline = issue.timeline ++ [e] ∧
        e.message = "Issue boosted by payment" ∧ e.date = now) ∧
    (∃ q, subscribeSuccess users subPayments session now =
        Except.ok (setPremium users email now, subPayments ++ [q]) ∧
      q.sessionId = session.id) := by
  constructor
  · refine ⟨addTimelineEntry { issue with priority := "High" } now none
        "Issue boosted by payment" ((session.customerEmail).getD "") "Citizen",
      { issueId := issueId
        title := session.metaTitle
        email := session.customerEmail
        amount := match session.amountTotal with
                  | some n => if n = 0 then none else some (n / 100)
                  | none => none
        currency := jsOrNull session.currency
        paymentStatus := jsOrNull session.paymentStatus
        transactionId := session.id
        createdAt := now }, ?_, rfl, rfl, ?_⟩
    · simp [boostSuccess, hid, hne, hval]
    · refine ⟨_, rfl, ?_, rfl⟩
      show jsOr "Issue boosted by payment" "" = "Issue boosted by payment"
      decide
  · refine ⟨{ email := email
              amount := session.amountTotal.getD 0 / 100
              currency := session.currency
              createdAt := now
              sessionId := session.id }, ?_, rfl⟩
    simp [subscribeSuccess, hem, hene]

/-- Witness for C2 (amended) at the concrete replay session. -/
theorem C2_reconciliation_unguarded_witness :
    (∃ i' p', boostSuccess sampleIssue [] replaySession 5 =
        Except.ok (i', [] ++ [p']) ∧
      p'.transactionId = replaySession.id ∧ i'.priority = "High" ∧
      ∃ e, i'.timeline = sampleIssue.timeline ++ [e] ∧
        e.message = "Issue boosted by payment" ∧ e.date = 5) ∧
    (∃ q, subscribeSuccess [alice] [] replaySession 5 =
        Except.ok (setPremium [alice] "payer@example.com" 5, [] ++ [q]) ∧
      q.sessionId = replaySession.id) :=
  C2_reconciliation_unguarded sampleIssue [] replaySession 5 [alice] []
    "64a1b2c3d4e5f60718293a4b" rfl (by decide) (by decide)
    "payer@example.com" rfl (by decide)

/-- Claim C2 counterexample: reconciling the boost transaction id
"cs_test_0001" twice inserts TWO payment records with that transaction
id and appends TWO boost timeline entries, and reconciling the
subscription session twice inserts two payment records with the same
session id — the second call does not return the prior outcome without
a new record. -/
theorem C2_counterexample :
    isOkE boostSecond = true ∧
    ((boostPaymentsOf boostSecond).filter
      (fun p => p.transactionId == replaySession.id)).length = 2 ∧
    ((boostIssueOf boostSecond).timeline.filter
      (fun e => e.message == "Issue boosted by payment")).length = 2 ∧
    ((subPaymentsOf subSecond).filter
      (fun q => q.sessionId == replaySession.id)).length = 2 :=
  ⟨rfl, rfl, rfl, rfl⟩
